import Mathlib

/-!
# Verification of the ReforgeHQ python SDK configuration core

This development embeds the configuration synchronization core of the SDK
(config loader/store, checkpoint loader, SSE connection manager, SSE
watchdog, option normalization) as executable Lean definitions and proves
the documented properties about them.

The SSE watchdog (`_sse_watchdog.py`) is embedded directly from its source.
The config loader, `ConfigSDK`, `SSEConnectionManager` and `Options`
classes are not shipped in this source tree (only their tests and abstract
interface are), so those components are modelled from the specification,
pinned where possible by the behavior the repository's tests assert.
-/

/-! ## Data model (§3 of the spec) -/

/-- The typed value carried by a config row; the store treats it as opaque. -/
inductive ConfigValue where
  | intVal (i : Int)
  | stringVal (s : String)
  | boolVal (b : Bool)
  | logLevelVal (n : Nat)
  deriving DecidableEq, Repr

/-- A conditional value inside a config row. -/
structure ConditionalValue where
  value : ConfigValue
  deriving DecidableEq, Repr

/-- A row of a config entry (targeting rules plus values); opaque to the store. -/
structure ConfigRow where
  values : List ConditionalValue
  deriving DecidableEq, Repr

/-- `ConfigEntry`: (`id`, `key`, `rows`).  An entry with empty `rows` is a
tombstone. -/
structure ConfigEntry where
  id : Nat
  key : String
  rows : List ConfigRow
  deriving DecidableEq, Repr

/-- The envelope message: a list of entries plus an optional project pointer. -/
structure ConfigServicePointer where
  project_id : Nat
  project_env_id : Nat
  deriving DecidableEq, Repr

structure Configs where
  configs : List ConfigEntry
  config_service_pointer : Option ConfigServicePointer := none
  deriving DecidableEq, Repr

/-! ## Config loader / store (spec §4.1)

Modelled from the spec: the `ConfigLoader` class is not present in this
source tree (only `tests/test_config_loader.py` exercises it).  The store
is `by_key : map<string, ConfigEntry>` with `highwater_mark : uint64`;
`set(entry, source)` applies invariants 1-4 of §3 and the merge rules of
§4.1, returning whether the visible store changed. -/

/-- First-match association-list lookup, the map read of `by_key`. -/
def lookupKey (m : List (String × ConfigEntry)) (k : String) : Option ConfigEntry :=
  match m with
  | [] => none
  | p :: rest => if p.1 = k then some p.2 else lookupKey rest k

/-- Remove every binding of key `k` (dict deletion). -/
def eraseKey (m : List (String × ConfigEntry)) (k : String) :
    List (String × ConfigEntry) :=
  m.filter (fun p => p.1 ≠ k)

/-- Bind key `k` to `v`, replacing any previous binding (dict assignment). -/
def insertKey (m : List (String × ConfigEntry)) (k : String) (v : ConfigEntry) :
    List (String × ConfigEntry) :=
  (k, v) :: eraseKey m k

/-- The loader's store state (spec §3 "Store state"). -/
structure ConfigLoader where
  by_key : List (String × ConfigEntry)
  highwater_mark : Nat
  deriving DecidableEq, Repr

/-- A freshly created, empty loader. -/
def ConfigLoader.empty : ConfigLoader := ⟨[], 0⟩

/-- Modelled from the spec: `set(entry, source) → bool` of the missing
`ConfigLoader` class.  Applies the merge invariants of §3: an incoming
entry with `id ≤` the stored id is ignored; a tombstone (empty `rows`)
with id strictly greater than the stored id deletes the key; otherwise the
entry replaces the stored one.  `highwater_mark` becomes the max of itself
and the entry id in every case.  Returns the new state and whether the
visible store changed. -/
def ConfigLoader.set (l : ConfigLoader) (entry : ConfigEntry) (_source : String) :
    ConfigLoader × Bool :=
  let hw := max l.highwater_mark entry.id
  match lookupKey l.by_key entry.key with
  | none =>
      if entry.rows = [] then
        ({ by_key := l.by_key, highwater_mark := hw }, false)
      else
        ({ by_key := insertKey l.by_key entry.key entry, highwater_mark := hw }, true)
  | some stored =>
      if entry.id ≤ stored.id then
        ({ by_key := l.by_key, highwater_mark := hw }, false)
      else if entry.rows = [] then
        ({ by_key := eraseKey l.by_key entry.key, highwater_mark := hw }, true)
      else
        ({ by_key := insertKey l.by_key entry.key entry, highwater_mark := hw }, true)

/-- Apply `set` to each entry in arrival order (the store mutation of
`set_all`, spec §4.1). -/
def ConfigLoader.applyAll (l : ConfigLoader) (es : List ConfigEntry) : ConfigLoader :=
  es.foldl (fun s e => (s.set e "test").1) l

/-- Modelled from the spec: `get_api_deltas` returns the envelope of the
currently stored entries (tests `test_api_deltas`,
`test_loading_tombstone_removes_entries`). -/
def ConfigLoader.get_api_deltas (l : ConfigLoader) : List ConfigEntry :=
  l.by_key.map Prod.snd

/-! ### Store lemmas -/

theorem lookupKey_eraseKey (m : List (String × ConfigEntry)) (k : String) :
    lookupKey (eraseKey m k) k = none := by
  induction m with
  | nil => rfl
  | cons p rest ih =>
      by_cases h : p.1 = k
      · simpa [eraseKey, List.filter, h] using ih
      · simpa [eraseKey, List.filter, h, lookupKey] using ih

theorem mem_eraseKey_ne (m : List (String × ConfigEntry)) (k : String)
    (p : String × ConfigEntry) (hp : p ∈ eraseKey m k) : p.1 ≠ k := by
  have := List.of_mem_filter hp
  simpa using this

/-- `set` always raises the highwater mark to the max of itself and the id. -/
theorem ConfigLoader.set_highwater (l : ConfigLoader) (e : ConfigEntry) (src : String) :
    ((l.set e src).1).highwater_mark = max l.highwater_mark e.id := by
  unfold ConfigLoader.set
  cases h : lookupKey l.by_key e.key
  · by_cases hr : e.rows = [] <;> simp [h, hr]
  · rename_i stored
    by_cases hle : e.id ≤ stored.id
    · simp [h, hle]
    · by_cases hr : e.rows = [] <;> simp [h, hle, hr]

/-- `set` never touches other keys' visibility nor lowers highwater. -/
theorem ConfigLoader.applyAll_highwater (l : ConfigLoader) (es : List ConfigEntry) :
    (l.applyAll es).highwater_mark
      = es.foldl (fun h e => max h e.id) l.highwater_mark := by
  induction es generalizing l with
  | nil => rfl
  | cons e rest ih =>
      simp only [ConfigLoader.applyAll, List.foldl_cons] at *
      rw [ih]
      have h := ConfigLoader.set_highwater l e "test"
      rw [h]

theorem foldl_max_le_init (es : List ConfigEntry) (a : Nat) :
    a ≤ es.foldl (fun h e => max h e.id) a := by
  induction es generalizing a with
  | nil => exact Nat.le_refl a
  | cons e rest ih =>
      simp only [List.foldl_cons]
      exact Nat.le_trans (Nat.le_max_left a e.id) (ih (max a e.id))

/-- If the incoming id is ≤ the stored id, the visible store is unchanged. -/
theorem ConfigLoader.set_stale (l : ConfigLoader) (e stored : ConfigEntry)
    (src : String) (hl : lookupKey l.by_key e.key = some stored)
    (hle : e.id ≤ stored.id) : (l.set e src).1.by_key = l.by_key := by
  unfold ConfigLoader.set
  simp [hl, hle]

/-- A tombstone with a strictly greater id erases the key from the map. -/
theorem ConfigLoader.set_tombstone_by_key (l : ConfigLoader) (e stored : ConfigEntry)
    (src : String) (hr : e.rows = []) (hl : lookupKey l.by_key e.key = some stored)
    (hlt : stored.id < e.id) :
    (l.set e src).1.by_key = eraseKey l.by_key e.key := by
  unfold ConfigLoader.set
  simp [hl, hr, show ¬ e.id ≤ stored.id from Nat.not_le.mpr hlt]

/-- The row used throughout the repository's loader tests (`int = 456`). -/
def sampleRow : ConfigRow := ⟨[⟨ConfigValue.intVal 456⟩]⟩

/-- The `sample_int` entry of the loader tests, at a chosen id. -/
def sampleEntry (i : Nat) : ConfigEntry := ⟨i, "sample_int", [sampleRow]⟩

/-- An entry at another key, used to set a high highwater mark. -/
def otherEntry (i : Nat) : ConfigEntry := ⟨i, "other_key", [sampleRow]⟩

/-- A tombstone for `sample_int` (empty rows) at a chosen id. -/
def tombEntry (i : Nat) : ConfigEntry := ⟨i, "sample_int", []⟩

/-- C1: for every sequence of `set` calls, the highwater mark is
non-decreasing and after each call equals the maximum entry id observed so
far (a fold of `max` over the ids); an incoming entry whose id is ≤ the
stored entry's id leaves the visible store unchanged but still advances the
highwater mark to that maximum; applying ids 1, 5, 2 for one key yields
highwater mark 5. -/
theorem configLoader_set_highwater_spec :
    (∀ (l : ConfigLoader) (es : List ConfigEntry),
        (l.applyAll es).highwater_mark
          = es.foldl (fun h e => max h e.id) l.highwater_mark)
    ∧ (∀ (l : ConfigLoader) (es : List ConfigEntry),
        l.highwater_mark ≤ (l.applyAll es).highwater_mark)
    ∧ (∀ (l : ConfigLoader) (e stored : ConfigEntry) (src : String),
        lookupKey l.by_key e.key = some stored → e.id ≤ stored.id →
          (l.set e src).1.by_key = l.by_key
          ∧ (l.set e src).1.highwater_mark = max l.highwater_mark e.id)
    ∧ (ConfigLoader.empty.applyAll
        [sampleEntry 1, sampleEntry 5, sampleEntry 2]).highwater_mark = 5 := by
  refine ⟨ConfigLoader.applyAll_highwater, ?_, ?_, by decide⟩
  · intro l es
    rw [ConfigLoader.applyAll_highwater]
    exact foldl_max_le_init es l.highwater_mark
  · intro l e stored src hl hle
    exact ⟨ConfigLoader.set_stale l e stored src hl hle,
           ConfigLoader.set_highwater l e src⟩

/-- Witness for C1 at a concrete input: with `sample_int` stored at id 5, a
stale incoming entry with id 2 leaves the store unchanged and keeps the
highwater mark at the maximum. -/
theorem configLoader_set_highwater_spec_witness :
    ((ConfigLoader.empty.applyAll [sampleEntry 5]).set (sampleEntry 2) "test").1.by_key
      = (ConfigLoader.empty.applyAll [sampleEntry 5]).by_key
    ∧ ((ConfigLoader.empty.applyAll [sampleEntry 5]).set (sampleEntry 2) "test").1.highwater_mark
      = max (ConfigLoader.empty.applyAll [sampleEntry 5]).highwater_mark (sampleEntry 2).id :=
  configLoader_set_highwater_spec.2.2.1 (ConfigLoader.empty.applyAll [sampleEntry 5])
    (sampleEntry 2) (sampleEntry 5) "test" (by decide) (by decide)

/-- C2 as literally stated is false: deleting a key via a tombstone sets the
highwater mark to the max of its previous value and the tombstone's id, not
to the tombstone's id itself.  With `other_key` at id 10 and `sample_int` at
id 2, a tombstone for `sample_int` with id 3 deletes the key but leaves the
highwater mark at 10 ≠ 3. -/
theorem configLoader_tombstone_counterexample :
    (tombEntry 3).rows = []
    ∧ lookupKey (ConfigLoader.empty.applyAll [otherEntry 10, sampleEntry 2]).by_key
        "sample_int" = some (sampleEntry 2)
    ∧ (sampleEntry 2).id < (tombEntry 3).id
    ∧ lookupKey (((ConfigLoader.empty.applyAll [otherEntry 10, sampleEntry 2]).set
        (tombEntry 3) "test").1.by_key) "sample_int" = none
    ∧ ((ConfigLoader.empty.applyAll [otherEntry 10, sampleEntry 2]).set
        (tombEntry 3) "test").1.highwater_mark ≠ (tombEntry 3).id := by
  decide

/-- C2 (amended): a tombstone whose id is strictly greater than the stored
entry's id removes the key (it is gone from lookup and from
`get_api_deltas`) and updates the highwater mark to the max of its previous
value and the tombstone's id; a tombstone whose id is ≤ the stored entry's
id is a no-op on the visible store but still updates the highwater mark to
that maximum. -/
theorem configLoader_tombstone_spec :
    ∀ (l : ConfigLoader) (e stored : ConfigEntry) (src : String),
      e.rows = [] → lookupKey l.by_key e.key = some stored →
      ((stored.id < e.id →
          lookupKey (l.set e src).1.by_key e.key = none
          ∧ ((∀ p ∈ l.by_key, p.2.key = p.1) →
              ∀ c ∈ (l.set e src).1.get_api_deltas, c.key ≠ e.key)
          ∧ (l.set e src).1.highwater_mark = max l.highwater_mark e.id)
       ∧ (e.id ≤ stored.id →
          (l.set e src).1.by_key = l.by_key
          ∧ (l.set e src).1.highwater_mark = max l.highwater_mark e.id)) := by
  intro l e stored src hr hl
  constructor
  · intro hlt
    have hby := ConfigLoader.set_tombstone_by_key l e stored src hr hl hlt
    refine ⟨?_, ?_, ConfigLoader.set_highwater l e src⟩
    · rw [hby]
      exact lookupKey_eraseKey l.by_key e.key
    · intro hwf c hc
      unfold ConfigLoader.get_api_deltas at hc
      rw [hby] at hc
      obtain ⟨p, hp, hpc⟩ := List.mem_map.mp hc
      have hne : p.1 ≠ e.key := mem_eraseKey_ne l.by_key e.key p hp
      have hmem : p ∈ l.by_key := List.mem_of_mem_filter hp
      rw [← hpc]
      rw [hwf p hmem]
      exact hne
  · intro hle
    exact ⟨ConfigLoader.set_stale l e stored src hl hle,
           ConfigLoader.set_highwater l e src⟩

/-- Witness for the amended C2 at a concrete input: `sample_int` stored at
id 2, tombstone at id 3 removes the key and raises the highwater mark. -/
theorem configLoader_tombstone_spec_witness :
    lookupKey ((ConfigLoader.empty.applyAll [sampleEntry 2]).set (tombEntry 3) "test").1.by_key
      "sample_int" = none
    ∧ ((ConfigLoader.empty.applyAll [sampleEntry 2]).set (tombEntry 3) "test").1.highwater_mark
      = max (ConfigLoader.empty.applyAll [sampleEntry 2]).highwater_mark (tombEntry 3).id :=
  let h := configLoader_tombstone_spec (ConfigLoader.empty.applyAll [sampleEntry 2])
      (tombEntry 3) (sampleEntry 2) "test" (by decide) (by decide)
  ⟨(h.1 (by decide)).1, (h.1 (by decide)).2.2⟩

/-! ## Checkpoint loader (spec §4.4)

Modelled from the spec: `ConfigSDK.load_checkpoint` is not present in this
source tree (only `tests/test_config_sdk.py` exercises it through mocks).
Its control flow is abstracted over the outcome of the initial
`load_checkpoint_from_api_cdn` call; the effects record which side effects
the procedure performs. -/

/-- Outcome of the `load_checkpoint_from_api_cdn` call as observed by
`load_checkpoint`: it returned true, returned false, raised
`UnauthorizedException`, or raised some other exception. -/
inductive CdnOutcome where
  | success
  | returnedFalse
  | raisedUnauthorized
  | raisedOther
  deriving DecidableEq, Repr

/-- The side effects of one `load_checkpoint` run. -/
structure LoadCheckpointEffects where
  unauthorized_event_set : Bool
  init_latch_counted_down : Bool
  is_initialized_set : Bool
  streaming_started : Bool
  cache_attempted : Bool
  deriving DecidableEq, Repr

/-- Modelled from the spec: `ConfigSDK.load_checkpoint` (§4.4).  On
`Unauthorized` it sets the unauthorized event, counts down the init latch
and does not start streaming; on any other failure it falls back to the
cache (when enabled) and starts streaming without releasing the latch; on
success it starts streaming as the ongoing update path. -/
def load_checkpoint (cdn : CdnOutcome) (cacheEnabled : Bool) : LoadCheckpointEffects :=
  match cdn with
  | CdnOutcome.raisedUnauthorized =>
      { unauthorized_event_set := true, init_latch_counted_down := true,
        is_initialized_set := false, streaming_started := false,
        cache_attempted := false }
  | CdnOutcome.success =>
      { unauthorized_event_set := false, init_latch_counted_down := false,
        is_initialized_set := false, streaming_started := true,
        cache_attempted := false }
  | CdnOutcome.returnedFalse =>
      { unauthorized_event_set := false, init_latch_counted_down := false,
        is_initialized_set := false, streaming_started := true,
        cache_attempted := cacheEnabled }
  | CdnOutcome.raisedOther =>
      { unauthorized_event_set := false, init_latch_counted_down := false,
        is_initialized_set := false, streaming_started := true,
        cache_attempted := cacheEnabled }

/-- C3: when the initial checkpoint raises `Unauthorized`, the unauthorized
event is set, the init latch is counted down, and streaming is not started;
for every other failure (the fetch returning false or raising a
non-Unauthorized exception) streaming is started as a fallback while
`is_initialized` stays unset and the latch is not counted down. -/
theorem load_checkpoint_error_handling :
    (∀ ce, load_checkpoint CdnOutcome.raisedUnauthorized ce
        = { unauthorized_event_set := true, init_latch_counted_down := true,
            is_initialized_set := false, streaming_started := false,
            cache_attempted := false })
    ∧ (∀ ce, (load_checkpoint CdnOutcome.returnedFalse ce).streaming_started = true
        ∧ (load_checkpoint CdnOutcome.returnedFalse ce).init_latch_counted_down = false
        ∧ (load_checkpoint CdnOutcome.returnedFalse ce).is_initialized_set = false)
    ∧ (∀ ce, (load_checkpoint CdnOutcome.raisedOther ce).streaming_started = true
        ∧ (load_checkpoint CdnOutcome.raisedOther ce).init_latch_counted_down = false
        ∧ (load_checkpoint CdnOutcome.raisedOther ce).is_initialized_set = false) :=
  ⟨fun _ => rfl, fun _ => ⟨rfl, rfl, rfl⟩, fun _ => ⟨rfl, rfl, rfl⟩⟩

/-! ## CDN checkpoint fetch (spec §4.4 step 1)

Modelled from the spec: `ConfigSDK.load_checkpoint_from_api_cdn` is not
present in this source tree (only `tests/test_zero_byte_configs.py`
exercises it).  The HTTP response carries a success flag and a raw byte
body; the binary-envelope decoder is a parameter. -/

/-- An HTTP response: `ok` (2xx) plus the raw body bytes. -/
structure HttpResponse where
  ok : Bool
  content : List Nat
  deriving DecidableEq, Repr

/-- The warning the code logs on a zero-byte CDN body
(`tests/test_zero_byte_configs.py`). -/
def zeroByteCdnWarning : String :=
  "Received zero-byte config payload from remote_cdn_api, treating as connection error"

/-- The observable effects of one `load_checkpoint_from_api_cdn` run. -/
structure CdnFetchEffects where
  result : Bool
  warnings : List String
  load_configs_calls : List (Configs × String)
  deriving DecidableEq, Repr

/-- Modelled from the spec: `ConfigSDK.load_checkpoint_from_api_cdn`.  A
non-2xx response yields false; a 2xx response with a zero-byte body logs
the zero-byte warning and yields false without touching the store; a 2xx
response whose body decodes to an envelope is merged via
`load_configs(configs, "remote_cdn_api")` and yields true; a body that
fails to decode yields false. -/
def load_checkpoint_from_api_cdn (decode : List Nat → Option Configs)
    (resp : HttpResponse) : CdnFetchEffects :=
  if resp.ok then
    if resp.content = [] then
      { result := false, warnings := [zeroByteCdnWarning], load_configs_calls := [] }
    else
      match decode resp.content with
      | some cfgs =>
          { result := true, warnings := [],
            load_configs_calls := [(cfgs, "remote_cdn_api")] }
      | none => { result := false, warnings := [], load_configs_calls := [] }
  else
    { result := false, warnings := [], load_configs_calls := [] }

/-- C4: a 2xx response with a zero-byte body makes
`load_checkpoint_from_api_cdn` return false, log the zero-byte warning and
leave the store untouched (no `load_configs` call); a 2xx response with a
non-empty body that decodes to a valid envelope is merged via
`load_configs` and makes the call return true. -/
theorem load_checkpoint_from_api_cdn_spec :
    ∀ (decode : List Nat → Option Configs) (resp : HttpResponse),
      resp.ok = true →
      ((resp.content = [] →
          load_checkpoint_from_api_cdn decode resp
            = { result := false, warnings := [zeroByteCdnWarning],
                load_configs_calls := [] })
       ∧ (∀ cfgs, resp.content ≠ [] → decode resp.content = some cfgs →
          load_checkpoint_from_api_cdn decode resp
            = { result := true, warnings := [],
                load_configs_calls := [(cfgs, "remote_cdn_api")] })) := by
  intro decode resp hok
  constructor
  · intro hempty
    unfold load_checkpoint_from_api_cdn
    simp [hok, hempty]
  · intro cfgs hne hdec
    unfold load_checkpoint_from_api_cdn
    simp [hok, hne, hdec]

/-- Witness for C4 at concrete inputs: a zero-byte 200 yields false with the
warning; a one-byte 200 whose decode yields a one-entry envelope is merged
and yields true. -/
theorem load_checkpoint_from_api_cdn_spec_witness :
    load_checkpoint_from_api_cdn (fun _ => some ⟨[sampleEntry 1], none⟩) ⟨true, []⟩
      = { result := false, warnings := [zeroByteCdnWarning], load_configs_calls := [] }
    ∧ load_checkpoint_from_api_cdn (fun _ => some ⟨[sampleEntry 1], none⟩) ⟨true, [7]⟩
      = { result := true, warnings := [],
          load_configs_calls := [(⟨[sampleEntry 1], none⟩, "remote_cdn_api")] } :=
  ⟨(load_checkpoint_from_api_cdn_spec (fun _ => some ⟨[sampleEntry 1], none⟩)
      ⟨true, []⟩ rfl).1 rfl,
   (load_checkpoint_from_api_cdn_spec (fun _ => some ⟨[sampleEntry 1], none⟩)
      ⟨true, [7]⟩ rfl).2 ⟨[sampleEntry 1], none⟩ (by decide) rfl⟩

/-! ## SSE event processing (spec §4.5)

Modelled from the spec: `SSEConnectionManager.process_response` is not
present in this source tree (only `tests/test_zero_byte_configs.py`
exercises it).  Each SSE event's `data:` line is base64-decoded; the model
receives the decoded payloads directly.  Whether the server-side protocol
requires closing and reopening the stream after a merged event is the
`requiresReconnect` parameter. -/

/-- The base64-decoded payload of one SSE event: empty bytes or an envelope. -/
inductive SSEPayload where
  | emptyPayload
  | envelope (c : Configs)
  deriving DecidableEq, Repr

/-- The warning the code logs on a zero-byte SSE payload
(`tests/test_zero_byte_configs.py`). -/
def zeroByteSseWarning : String :=
  "Received zero-byte config payload from SSE stream, treating as connection error"

/-- The observable effects of one `process_response` run. -/
structure SseEffects where
  warnings : List String
  load_configs_calls : List (Configs × String)
  close_called : Bool
  deriving DecidableEq, Repr

/-- Modelled from the spec: `SSEConnectionManager.process_response`.  A
zero-byte payload logs a warning and returns from the handler without
closing the client (the outer reconnect loop reopens); a valid payload is
merged via `load_configs(configs, "sse_streaming")`, after which the stream
is closed iff the protocol requires reconnection, otherwise iteration
continues with the next event. -/
def process_response (requiresReconnect : Bool) : List SSEPayload → SseEffects
  | [] => { warnings := [], load_configs_calls := [], close_called := false }
  | SSEPayload.emptyPayload :: _ =>
      { warnings := [zeroByteSseWarning], load_configs_calls := [],
        close_called := false }
  | SSEPayload.envelope c :: rest =>
      if requiresReconnect then
        { warnings := [], load_configs_calls := [(c, "sse_streaming")],
          close_called := true }
      else
        let eff := process_response requiresReconnect rest
        { eff with
          load_configs_calls := (c, "sse_streaming") :: eff.load_configs_calls }

/-- C5: a zero-byte SSE payload logs a warning, drops the event (no
`load_configs` call) and returns without closing the client; a non-empty
payload is merged via `load_configs(configs, "sse_streaming")` and the
stream is closed only when the protocol requires reconnection, otherwise
iteration continues over the remaining events. -/
theorem sse_process_response_spec :
    (∀ rr rest, process_response rr (SSEPayload.emptyPayload :: rest)
        = { warnings := [zeroByteSseWarning], load_configs_calls := [],
            close_called := false })
    ∧ (∀ c rest, process_response true (SSEPayload.envelope c :: rest)
        = { warnings := [], load_configs_calls := [(c, "sse_streaming")],
            close_called := true })
    ∧ (∀ c rest, process_response false (SSEPayload.envelope c :: rest)
        = { process_response false rest with
            load_configs_calls :=
              (c, "sse_streaming") :: (process_response false rest).load_configs_calls }) :=
  ⟨fun _ _ => rfl, fun _ _ => rfl, fun _ _ => rfl⟩

/-! ## SSE watchdog (`src/sdk_reforge/_sse_watchdog.py`)

Embedded from the source.  Wall-clock time is modelled in discrete ticks
(`Nat`); `time.time()` observations become explicit `now` arguments. -/

def DEFAULT_CHECK_INTERVAL : Nat := 60

def DEFAULT_MAX_SILENCE : Nat := 120

/-- The watchdog's mutable state: `last_activity` plus whether the loop has
been stopped (by the stop event or by observing shutdown). -/
structure WdState where
  lastActivity : Nat
  stopped : Bool
  deriving DecidableEq, Repr

/-- What one watchdog step did: how many poll-fallback calls and how many
stream-handle closes it performed. -/
structure WdLog where
  polls : Nat
  closes : Nat
  deriving DecidableEq, Repr

/-- `SSEWatchdog._trigger_recovery`: call the poll fallback once (any
exception is logged and swallowed), then close the current stream handle
when the supplier returns one (close failures swallowed), then reset
`last_activity` to now.  `pollRaises`/`closeRaises` record whether those
calls raise; both are swallowed and do not change the behavior. -/
def trigger_recovery (now : Nat) (hasHandle : Bool)
    (_pollRaises _closeRaises : Bool) (s : WdState) : WdState × WdLog :=
  ({ lastActivity := now, stopped := s.stopped },
   { polls := 1, closes := if hasHandle then 1 else 0 })

/-- One iteration of `SSEWatchdog._run` at observation time `now`: if the
stop event has fired, the loop has exited; if `is_shutting_down()` holds,
the loop breaks; otherwise, when `now - last_activity > max_silence`,
recovery is triggered. -/
def watchdogCheck (maxSilence now : Nat) (shuttingDown hasHandle : Bool)
    (pollRaises closeRaises : Bool) (s : WdState) : WdState × WdLog :=
  if s.stopped then (s, ⟨0, 0⟩)
  else if shuttingDown then ({ s with stopped := true }, ⟨0, 0⟩)
  else if now - s.lastActivity > maxSilence then
    trigger_recovery now hasHandle pollRaises closeRaises s
  else (s, ⟨0, 0⟩)

/-- The events a watchdog observes over its lifetime: a `touch()` from the
byte-stream interposer, one loop check, or the `stop()` signal. -/
inductive WdEvent where
  | touch (t : Nat)
  | check (t : Nat) (shuttingDown : Bool) (hasHandle : Bool)
  | stopSignal
  deriving DecidableEq, Repr

/-- Apply one event to the watchdog state. -/
def wdStep (maxSilence : Nat) (s : WdState) : WdEvent → WdState × WdLog
  | WdEvent.touch t => ({ s with lastActivity := t }, ⟨0, 0⟩)
  | WdEvent.check t sd h => watchdogCheck maxSilence t sd h false false s
  | WdEvent.stopSignal => ({ s with stopped := true }, ⟨0, 0⟩)

/-- Run the watchdog over a sequence of events, accumulating its log. -/
def runWd (maxSilence : Nat) (s : WdState) : List WdEvent → WdState × WdLog
  | [] => (s, ⟨0, 0⟩)
  | e :: rest =>
      let r1 := wdStep maxSilence s e
      let r2 := runWd maxSilence r1.1 rest
      (r2.1, ⟨r1.2.polls + r2.2.polls, r1.2.closes + r2.2.closes⟩)

/-- The touch discipline of spec property 10: starting from last activity
`a`, every check happens within `maxSilence / 2` of the most recent touch
(or of `a` when none happened yet). -/
def touchDiscipline (maxSilence : Nat) : Nat → List WdEvent → Bool
  | _, [] => true
  | _, WdEvent.touch t :: rest => touchDiscipline maxSilence t rest
  | a, WdEvent.check t _ _ :: rest =>
      decide (t - a ≤ maxSilence / 2) && touchDiscipline maxSilence a rest
  | a, WdEvent.stopSignal :: rest => touchDiscipline maxSilence a rest

/-- A stopped watchdog stays stopped under every event. -/
theorem wdStep_stopped (maxSilence : Nat) (s : WdState) (e : WdEvent)
    (hs : s.stopped = true) :
    (wdStep maxSilence s e).1.stopped = true ∧ (wdStep maxSilence s e).2 = ⟨0, 0⟩ := by
  cases e with
  | touch t => exact ⟨hs, rfl⟩
  | check t sd h => simp [wdStep, watchdogCheck, hs]
  | stopSignal => exact ⟨rfl, rfl⟩

/-- A stopped watchdog performs no recovery over any event sequence. -/
theorem runWd_stopped (maxSilence : Nat) (s : WdState) (l : List WdEvent)
    (hs : s.stopped = true) : (runWd maxSilence s l).2 = ⟨0, 0⟩ := by
  induction l generalizing s with
  | nil => rfl
  | cons e rest ih =>
      obtain ⟨h1, h2⟩ := wdStep_stopped maxSilence s e hs
      simp only [runWd]
      rw [ih (wdStep maxSilence s e).1 h1, h2]
      rfl

/-- Under the touch discipline the watchdog performs no recovery. -/
theorem runWd_touchDiscipline (maxSilence : Nat) (s : WdState) (l : List WdEvent)
    (hd : touchDiscipline maxSilence s.lastActivity l = true) :
    (runWd maxSilence s l).2 = ⟨0, 0⟩ := by
  induction l generalizing s with
  | nil => rfl
  | cons e rest ih =>
      cases e with
      | touch t =>
          simp only [touchDiscipline] at hd
          simp only [runWd, wdStep]
          rw [ih { s with lastActivity := t } hd]
          rfl
      | check t sd h =>
          simp only [touchDiscipline, Bool.and_eq_true, decide_eq_true_eq] at hd
          obtain ⟨hwin, hrest⟩ := hd
          have hnot : ¬ t - s.lastActivity > maxSilence := by
            have : t - s.lastActivity ≤ maxSilence :=
              Nat.le_trans hwin (Nat.div_le_self maxSilence 2)
            exact Nat.not_lt.mpr this
          by_cases hs : s.stopped
          · simp only [runWd, wdStep, watchdogCheck, hs, if_true]
            rw [ih s hrest]
            rfl
          · by_cases hsd : sd
            · simp only [runWd, wdStep, watchdogCheck, hs, hsd]
              simp only [Bool.false_eq_true, if_false, if_true]
              rw [ih { s with stopped := true } hrest]
              rfl
            · simp only [runWd, wdStep, watchdogCheck, hs, hsd]
              simp only [Bool.false_eq_true, if_false, hnot]
              rw [ih s hrest]
              rfl
      | stopSignal =>
          simp only [touchDiscipline] at hd
          simp only [runWd, wdStep]
          have : ({ s with stopped := true } : WdState).stopped = true := rfl
          rw [runWd_stopped maxSilence _ rest this]
          rfl

/-- C6: whenever a check observes `now - last_activity > max_silence` with
the SDK not shutting down and the loop live, it performs exactly one
recovery: one poll-fallback call (whether or not the poll raises), one
close of the stream handle exactly when the supplier returns one (whether
or not the close raises), and a reset of `last_activity` to now; after the
reset, no check within `max_silence` of the recovery triggers again. -/
theorem watchdog_recovery_spec :
    ∀ (ms now : Nat) (hasHandle pollRaises closeRaises : Bool) (s : WdState),
      s.stopped = false → now - s.lastActivity > ms →
      (watchdogCheck ms now false hasHandle pollRaises closeRaises s
          = (⟨now, false⟩, ⟨1, if hasHandle then 1 else 0⟩))
      ∧ (∀ (now2 : Nat) (h2 p2 c2 : Bool), now2 - now ≤ ms →
          (watchdogCheck ms now2 false h2 p2 c2 ⟨now, false⟩).2 = ⟨0, 0⟩) := by
  intro ms now hasHandle pollRaises closeRaises s hstop hsil
  constructor
  · simp [watchdogCheck, trigger_recovery, hstop, hsil]
  · intro now2 h2 p2 c2 hle
    have hnot : ¬ now2 - now > ms := Nat.not_lt.mpr hle
    simp [watchdogCheck, hnot]

/-- Witness for C6 at a concrete input: with `max_silence = 120`, last
activity at 1000 and a check at 1200 (silence 200), the watchdog polls once,
closes the present handle once and resets `last_activity` to 1200; a
following check at 1300 (silence 100) does nothing. -/
theorem watchdog_recovery_spec_witness :
    watchdogCheck 120 1200 false true false false ⟨1000, false⟩
      = (⟨1200, false⟩, ⟨1, 1⟩)
    ∧ (watchdogCheck 120 1300 false true false false ⟨1200, false⟩).2 = ⟨0, 0⟩ :=
  ⟨(watchdog_recovery_spec 120 1200 true false false ⟨1000, false⟩ rfl (by decide)).1,
   (watchdog_recovery_spec 120 1200 true false false ⟨1000, false⟩ rfl
      (by decide)).2 1300 true false false (by decide)⟩

/-- C7: the watchdog never triggers recovery while `touch()` arrives at
least every `max_silence / 2` ticks; it never triggers once the loop is
stopped, once a check observes the SDK shutting down, or once `stop()` has
been signalled. -/
theorem watchdog_no_false_trigger_spec :
    (∀ (ms : Nat) (s : WdState) (l : List WdEvent),
        touchDiscipline ms s.lastActivity l = true →
        (runWd ms s l).2 = ⟨0, 0⟩)
    ∧ (∀ (ms : Nat) (s : WdState) (l : List WdEvent),
        s.stopped = true → (runWd ms s l).2 = ⟨0, 0⟩)
    ∧ (∀ (ms t : Nat) (h : Bool) (s : WdState) (l : List WdEvent),
        (runWd ms s (WdEvent.check t true h :: l)).2 = ⟨0, 0⟩)
    ∧ (∀ (ms : Nat) (s : WdState) (l : List WdEvent),
        (runWd ms s (WdEvent.stopSignal :: l)).2 = ⟨0, 0⟩) := by
  refine ⟨runWd_touchDiscipline, runWd_stopped, ?_, ?_⟩
  · intro ms t h s l
    by_cases hs : s.stopped
    · simp only [runWd, wdStep, watchdogCheck, hs, if_true]
      rw [runWd_stopped ms s l hs]
      rfl
    · simp only [runWd, wdStep, watchdogCheck, hs]
      simp only [Bool.false_eq_true, if_false, if_true]
      have hstop : ({ s with stopped := true } : WdState).stopped = true := rfl
      rw [runWd_stopped ms _ l hstop]
      rfl
  · intro ms s l
    simp only [runWd, wdStep]
    have hstop : ({ s with stopped := true } : WdState).stopped = true := rfl
    rw [runWd_stopped ms _ l hstop]
    rfl

/-- Witness for C7 at concrete inputs: touches every 50 ticks with
`max_silence = 120` produce no recovery over two checks; a stopped watchdog
ignores a long-silent check; a check observing shutdown and a stop signal
likewise yield no recovery. -/
theorem watchdog_no_false_trigger_spec_witness :
    (runWd 120 ⟨0, false⟩ [WdEvent.touch 50, WdEvent.check 100 false true,
        WdEvent.touch 150, WdEvent.check 200 false true]).2 = ⟨0, 0⟩
    ∧ (runWd 120 ⟨0, true⟩ [WdEvent.check 500 false true]).2 = ⟨0, 0⟩
    ∧ (runWd 120 ⟨0, false⟩
        [WdEvent.check 500 true true, WdEvent.check 900 false true]).2 = ⟨0, 0⟩
    ∧ (runWd 120 ⟨0, false⟩
        [WdEvent.stopSignal, WdEvent.check 900 false true]).2 = ⟨0, 0⟩ :=
  ⟨watchdog_no_false_trigger_spec.1 120 ⟨0, false⟩ _ (by decide),
   watchdog_no_false_trigger_spec.2.1 120 ⟨0, true⟩ _ rfl,
   watchdog_no_false_trigger_spec.2.2.1 120 500 true ⟨0, false⟩ _,
   watchdog_no_false_trigger_spec.2.2.2 120 ⟨0, false⟩ _⟩

/-! ## Watchdog response wrapper (`src/sdk_reforge/_sse_watchdog.py`)

`WatchdogResponseWrapper.__iter__` iterates the wrapped response and, for
each chunk, first invokes `on_data_received` and then yields the chunk
unchanged; `close()` delegates to the wrapped response's `close()`. -/

/-- One item of the observable trace of the wrapper's iteration: an
`on_data_received` invocation or a yielded chunk. -/
inductive WrapItem (α : Type) where
  | callbackCall
  | chunk (c : α)
  deriving DecidableEq, Repr

/-- `WatchdogResponseWrapper.__iter__`: for each chunk of the wrapped
response, invoke the callback, then yield the chunk. -/
def wrapperIterate {α : Type} : List α → List (WrapItem α)
  | [] => []
  | c :: rest => WrapItem.callbackCall :: WrapItem.chunk c :: wrapperIterate rest

/-- The chunks yielded by a wrapper trace, in order. -/
def wrapperChunks {α : Type} (l : List (WrapItem α)) : List α :=
  l.filterMap fun i =>
    match i with
    | WrapItem.chunk c => some c
    | WrapItem.callbackCall => none

/-- The number of `on_data_received` invocations in a wrapper trace. -/
def wrapperCallbackCount {α : Type} (l : List (WrapItem α)) : Nat :=
  (l.filter fun i =>
    match i with
    | WrapItem.callbackCall => true
    | WrapItem.chunk _ => false).length

/-- `WatchdogResponseWrapper.close`: delegates exactly once to the wrapped
response's `close()`; argument and result count the wrapped response's
received close calls. -/
def wrapperClose (wrappedCloseCalls : Nat) : Nat := wrappedCloseCalls + 1

/-- C8: iterating the wrapper yields exactly the wrapped response's chunks,
in order and unchanged; the `on_data_received` callback is invoked exactly
once per chunk; `close()` adds exactly one close call on the wrapped
response. -/
theorem watchdog_response_wrapper_spec :
    (∀ (α : Type) (chunks : List α),
        wrapperChunks (wrapperIterate chunks) = chunks)
    ∧ (∀ (α : Type) (chunks : List α),
        wrapperCallbackCount (wrapperIterate chunks) = chunks.length)
    ∧ (∀ n : Nat, wrapperClose n = n + 1) := by
  refine ⟨?_, ?_, fun _ => rfl⟩
  · intro α chunks
    induction chunks with
    | nil => rfl
    | cons c rest ih =>
        simp only [wrapperIterate, wrapperChunks, List.filterMap_cons] at *
        rw [ih]
  · intro α chunks
    induction chunks with
    | nil => rfl
    | cons c rest ih =>
        simp only [wrapperIterate, wrapperCallbackCount, List.filter_cons] at *
        simp [ih]

/-! ## Read API missing-default policy (spec §7)

Modelled from the spec: `ConfigSDK.get` is not present in this source tree
(only `tests/test_config_sdk.py` exercises it).  The raise path is
represented with `Except`. -/

/-- A single-quote character as a string (the message quotes the key). -/
def squote : String := String.singleton (Char.ofNat 39)

/-- The `MissingDefaultException` message of `ConfigSDK.get`
(test `test_get_without_default_raises`). -/
def missingDefaultMessage (key : String) : String :=
  "No value found for key " ++ squote ++ key ++ squote
    ++ " and no default was provided."

/-- Modelled from the spec: the lookup-and-default path of `ConfigSDK.get`
(§7 "Missing default on get").  The key is looked up in the store; on a
miss the supplied default is returned when one is given, otherwise the call
raises `MissingDefaultException` under the `"RAISE"` policy and returns
null under `"RETURN_NONE"`. -/
def sdk_get (onNoDefault : String) (l : ConfigLoader) (key : String)
    (deflt : Option ConfigEntry) : Except String (Option ConfigEntry) :=
  match lookupKey l.by_key key with
  | some e => Except.ok (some e)
  | none =>
      match deflt with
      | some d => Except.ok (some d)
      | none =>
          if onNoDefault = "RAISE" then Except.error (missingDefaultMessage key)
          else Except.ok none

/-- C9: on a missing key with no default, `get` raises
`MissingDefaultException` carrying the quoted-key message under the
`"RAISE"` policy and returns null under `"RETURN_NONE"`; a supplied default
is returned for a missing key and nothing is raised, under either policy. -/
theorem sdk_get_missing_default_spec :
    ∀ (l : ConfigLoader) (key : String),
      lookupKey l.by_key key = none →
      (sdk_get "RAISE" l key none = Except.error (missingDefaultMessage key))
      ∧ (sdk_get "RETURN_NONE" l key none = Except.ok none)
      ∧ (∀ (p : String) (d : ConfigEntry),
          sdk_get p l key (some d) = Except.ok (some d)) := by
  intro l key hl
  refine ⟨?_, ?_, ?_⟩ <;> simp [sdk_get, hl]

/-- Witness for C9 at a concrete input: the key `bad key` is absent from the
empty store. -/
theorem sdk_get_missing_default_spec_witness :
    sdk_get "RAISE" ConfigLoader.empty "bad key" none
      = Except.error (missingDefaultMessage "bad key")
    ∧ sdk_get "RETURN_NONE" ConfigLoader.empty "bad key" none = Except.ok none :=
  ⟨(sdk_get_missing_default_spec ConfigLoader.empty "bad key" rfl).1,
   (sdk_get_missing_default_spec ConfigLoader.empty "bad key" rfl).2.1⟩

/-! ## Options policy normalization (spec §6)

Modelled from the spec: the `Options` class is not present in this source
tree (only `tests/test_options.py` exercises it).  The two policy fields
are normalized at construction: `on_no_default` keeps `"RETURN_NONE"` and
maps everything else to its default `"RAISE"`; `on_connection_failure`
keeps `"RAISE"` and maps everything else to its default `"RETURN"`.  The
constructor is total on these fields: no value is rejected. -/

def normalize_on_no_default (v : String) : String :=
  if v = "RETURN_NONE" then "RETURN_NONE" else "RAISE"

def normalize_on_connection_failure (v : String) : String :=
  if v = "RAISE" then "RAISE" else "RETURN"

/-- The two policy fields of a constructed `Options`. -/
structure OptionsPolicy where
  on_no_default : String
  on_connection_failure : String
  deriving DecidableEq, Repr

/-- Construct the policy fields of `Options` from the given inputs. -/
def mkOptionsPolicy (ond ocf : String) : OptionsPolicy :=
  ⟨normalize_on_no_default ond, normalize_on_connection_failure ocf⟩

/-- C10: `Options` construction silently normalizes both policy fields:
`on_no_default` becomes `"RETURN_NONE"` exactly when that was the input and
`"RAISE"` for every other input; `on_connection_failure` becomes `"RAISE"`
exactly when that was the input and `"RETURN"` otherwise; the result is
always one of the two recognized values, so no input is rejected
(construction is a total function on these fields). -/
theorem options_policy_normalization_spec :
    ∀ (v w : String),
      ((mkOptionsPolicy v w).on_no_default
          = if v = "RETURN_NONE" then "RETURN_NONE" else "RAISE")
      ∧ ((mkOptionsPolicy v w).on_connection_failure
          = if w = "RAISE" then "RAISE" else "RETURN")
      ∧ ((mkOptionsPolicy v w).on_no_default = "RAISE"
          ∨ (mkOptionsPolicy v w).on_no_default = "RETURN_NONE")
      ∧ ((mkOptionsPolicy v w).on_connection_failure = "RAISE"
          ∨ (mkOptionsPolicy v w).on_connection_failure = "RETURN") := by
  intro v w
  refine ⟨rfl, rfl, ?_, ?_⟩
  · by_cases h : v = "RETURN_NONE"
    · right
      simp [mkOptionsPolicy, normalize_on_no_default, h]
    · left
      simp [mkOptionsPolicy, normalize_on_no_default, h]
  · by_cases h : w = "RAISE"
    · left
      simp [mkOptionsPolicy, normalize_on_connection_failure, h]
    · right
      simp [mkOptionsPolicy, normalize_on_connection_failure, h]
